import Mathlib

/-!
Verification of the token lifecycle manager in `src/schwab_auth.py`
(Charles Schwab authentication module).

Python strings are modelled as `List Char` (`PyStr`).  The mutable world
(the local token file `schwab_refresh_token.txt` and the GCS remote
object) is an explicit state `St`; observable effects (file reads/writes,
GCS calls, HTTP exchanges, `input()` prompts) are recorded in an event
trace.  HTTP is modelled by response oracles `PyStr → HttpResponse`.
A Python function that can raise an uncaught exception (e.g. `KeyError`
from a `dict` subscript) returns `Except PyExn _`; a handled failure that
prints a diagnostic and returns `None` is `Except.ok none`.
-/

/-- Python string, modelled as a list of characters. -/
abbrev PyStr := List Char

/-- Whitespace characters removed by Python `str.strip()` (ASCII set). -/
def isPySpace (c : Char) : Bool :=
  c = ' ' || c = '\t' || c = '\n' || c = '\r' || c = '\x0b' || c = '\x0c'

/-- Python `s.strip()`: drop leading and trailing whitespace. -/
def pyStrip (s : PyStr) : PyStr :=
  ((s.dropWhile isPySpace).reverse.dropWhile isPySpace).reverse

/-- Value of a hex digit, as accepted by `urllib.parse.unquote`. -/
def hexVal (c : Char) : Option Nat :=
  if '0' ≤ c ∧ c ≤ '9' then some (c.toNat - '0'.toNat)
  else if 'a' ≤ c ∧ c ≤ 'f' then some (c.toNat - 'a'.toNat + 10)
  else if 'A' ≤ c ∧ c ≤ 'F' then some (c.toNat - 'A'.toNat + 10)
  else none

/-- `urllib.parse.unquote`: decode `%XX` hex escapes (ASCII fragment;
invalid escapes are left untouched, as in Python). -/
def pyUnquote : PyStr → PyStr
  | [] => []
  | '%' :: h1 :: h2 :: rest =>
    match hexVal h1, hexVal h2 with
    | some v1, some v2 => Char.ofNat (16 * v1 + v2) :: pyUnquote rest
    | _, _ => '%' :: pyUnquote (h1 :: h2 :: rest)
  | c :: rest => c :: pyUnquote rest

/-- First occurrence of `sep` in `s`: `some (before, after)` splits `s` as
`before ++ sep ++ after` at the leftmost match, `none` when `sep` does not
occur.  (`sep` is nonempty in every use below.) -/
def splitFirst (sep : PyStr) : PyStr → Option (PyStr × PyStr)
  | [] => if List.isPrefixOf sep ([] : PyStr) then some ([], []) else none
  | c :: cs =>
    if List.isPrefixOf sep (c :: cs) then some ([], List.drop sep.length (c :: cs))
    else (splitFirst sep cs).map (fun pr => (c :: pr.1, pr.2))

/-- Index of the first occurrence of `sep`, `none` when absent. -/
def firstIdx (sep : PyStr) : PyStr → Option Nat
  | [] => if List.isPrefixOf sep ([] : PyStr) then some 0 else none
  | c :: cs =>
    if List.isPrefixOf sep (c :: cs) then some 0
    else (firstIdx sep cs).map (· + 1)

/-- Python `sub in s` for strings. -/
def pyContains (sep s : PyStr) : Bool := (splitFirst sep s).isSome

/-- Python `s.split(sep)[0]` (`sep` nonempty): text before the first
occurrence of `sep`, or all of `s` when `sep` is absent. -/
def pySplitGet0 (sep s : PyStr) : PyStr :=
  match splitFirst sep s with
  | none => s
  | some (p, _) => p

/-- Python `s.split(sep)[1]` (`sep` nonempty, defined when `sep` occurs in
`s`, as guaranteed by the `in` guard at the call site): the segment between
the first occurrence of `sep` and the following one (or the end). -/
def pySplitGet1 (sep s : PyStr) : PyStr :=
  match splitFirst sep s with
  | none => []
  | some (_, r) =>
    match splitFirst sep r with
    | none => r
    | some (p, _) => p

/-- Python truthiness of an optional string: `None` and `""` are falsy. -/
def pyTruthy : Option PyStr → Bool
  | none => false
  | some t => !t.isEmpty

/-- The literal `"code="` searched for in the pasted redirect URL. -/
def codeEqStr : PyStr := "code=".toList

/-- The literal `"&"` used to cut off the extracted code. -/
def ampStr : PyStr := "&".toList

-- sanity examples (concrete evaluation of the string primitives)
example : pyStrip ("  ab c\n".toList) = "ab c".toList := by decide
example : pyUnquote ("ABC%2B123".toList) = "ABC+123".toList := by decide
example : pySplitGet1 codeEqStr ("x?code=AB&y".toList) = "AB&y".toList := by decide
example : pySplitGet0 ampStr ("AB&y".toList) = "AB".toList := by decide
example : pyContains codeEqStr ("?encode=x".toList) = true := by decide

/-!
## State, events and HTTP model

`St` holds the only mutable world the module touches: the local token file
`schwab_refresh_token.txt` and (when `GCS_BUCKET_NAME` is configured) the
remote GCS object of the same name.  `remote = none` covers both "object
absent" and "download fails": in both cases `GCSClient.download_file`
reports failure and writes nothing; on success it overwrites the local
file with the remote bytes.
-/

/-- JSON body of a token-endpoint response, projected onto the only two
fields the code reads (`response.json()['access_token']`,
`response.json()['refresh_token']`); `none` = field missing. -/
structure HttpResponse where
  status : Nat
  access_token : Option PyStr
  refresh_token : Option PyStr
deriving DecidableEq

/-- Mutable world state of `SchwabAuth`. -/
structure St where
  /-- Contents of `schwab_refresh_token.txt`; `none` = file absent. -/
  localFile : Option PyStr
  /-- Whether `GCS_BUCKET_NAME` is set (so `gcs_client` exists). -/
  gcsConfigured : Bool
  /-- Bytes of the remote GCS object; `none` = absent or download failure. -/
  remote : Option PyStr
deriving DecidableEq

/-- Observable effects, in execution order. -/
inductive Event where
  | loadLocal
  | saveLocal (t : PyStr)
  | gcsUpload
  | gcsDownload
  | httpCodeExchange (code : PyStr)
  | httpRefreshExchange (rt : PyStr)
  | promptHuman
deriving DecidableEq

/-- Uncaught Python exception (the only one reachable in this module is
`KeyError` from a `dict` subscript on a missing JSON field). -/
inductive PyExn where
  | keyError (field : String)
deriving DecidableEq

/-- Inputs external to the process: the two `input()` answers and the two
token-endpoint oracles (response as a function of the value sent). -/
structure Oracle where
  redirectInput : PyStr
  manualInput : PyStr
  codeResp : PyStr → HttpResponse
  refreshResp : PyStr → HttpResponse

/-!
## The embedded functions of `SchwabAuth` (src/schwab_auth.py)
-/

/-- Lines 35-39: `save_refresh_token` overwrites the local file. -/
def save_refresh_token (refresh_token : PyStr) (s : St) : St × List Event :=
  ({ s with localFile := some refresh_token }, [Event.saveLocal refresh_token])

/-- Lines 41-46: `load_refresh_token` returns the stripped file contents if
the file exists, else `None`. -/
def load_refresh_token (s : St) : Option PyStr × List Event :=
  (s.localFile.map pyStrip, [Event.loadLocal])

/-- Lines 48-50: `upload_refresh_token_to_gcs` copies the local file to the
remote object when GCS is configured, else does nothing. -/
def upload_refresh_token_to_gcs (s : St) : St × List Event :=
  if s.gcsConfigured then ({ s with remote := s.localFile }, [Event.gcsUpload])
  else (s, [])

/-- Lines 52-61: `download_refresh_token_from_gcs`.  When configured, a
successful `download_file` overwrites the local file with the remote bytes
and the token is re-read via `load_refresh_token`; on failure (or when GCS
is not configured) it returns `None` without touching the state. -/
def download_refresh_token_from_gcs (s : St) : Option PyStr × St × List Event :=
  if s.gcsConfigured then
    match s.remote with
    | some bytes =>
      let s1 : St := { s with localFile := some bytes }
      let lr := load_refresh_token s1
      (lr.1, s1, Event.gcsDownload :: lr.2)
    | none => (none, s, [Event.gcsDownload])
  else (none, s, [])

/-- Lines 75-104: `get_tokens_from_code`.  On `status_code == 200` the code
subscripts `tokens['access_token']` and `tokens['refresh_token']` (for the
truncated previews it prints) before returning the pair, so a missing field
raises an uncaught `KeyError` (`Except.error`).  On any other status it
prints a diagnostic and returns `None` (`Except.ok none`). -/
def get_tokens_from_code (codeResp : PyStr → HttpResponse)
    (authorization_code : PyStr) :
    Except PyExn (Option (PyStr × PyStr)) × List Event :=
  let resp := codeResp authorization_code
  let r : Except PyExn (Option (PyStr × PyStr)) :=
    if resp.status = 200 then
      match resp.access_token with
      | none => Except.error (PyExn.keyError "access_token")
      | some a =>
        match resp.refresh_token with
        | none => Except.error (PyExn.keyError "refresh_token")
        | some rt => Except.ok (some (a, rt))
    else Except.ok none
  (r, [Event.httpCodeExchange authorization_code])

/-- Lines 106-129: `refresh_access_token`.  On `status_code == 200` the code
subscripts `response.json()['access_token']` (uncaught `KeyError` when the
field is missing); otherwise it prints a diagnostic and returns `None`. -/
def refresh_access_token (refreshResp : PyStr → HttpResponse)
    (refresh_token : PyStr) : Except PyExn (Option PyStr) × List Event :=
  let resp := refreshResp refresh_token
  let r : Except PyExn (Option PyStr) :=
    if resp.status = 200 then
      match resp.access_token with
      | none => Except.error (PyExn.keyError "access_token")
      | some a => Except.ok (some a)
    else Except.ok none
  (r, [Event.httpRefreshExchange refresh_token])

/-- Lines 146-157: extraction of the authorization code from the pasted
redirect URL (`input()` is stripped; `"code=" in redirect_url` guards
`split("code=")[1].split("&")[0]` followed by `urllib.parse.unquote`; the
fallback asks for the code directly, strips and unquotes it). -/
def extract_code_from_redirect (redirect_url : PyStr) : PyStr :=
  pyUnquote (pySplitGet0 ampStr (pySplitGet1 codeEqStr redirect_url))

/-- Lines 146-157 as a function of the two possible `input()` answers:
the authorization code `automated_token_management` ends up with. -/
def auth_code_of (redirectInput manualInput : PyStr) : PyStr :=
  let redirect_url := pyStrip redirectInput
  if pyContains codeEqStr redirect_url then extract_code_from_redirect redirect_url
  else pyUnquote (pyStrip manualInput)

/-- The `input()` prompts issued by lines 146-157: one for the pasted URL,
plus one more when the fallback manual-entry path is taken. -/
def promptEvts (redirectInput : PyStr) : List Event :=
  if pyContains codeEqStr (pyStrip redirectInput) then [Event.promptHuman]
  else [Event.promptHuman, Event.promptHuman]

/-- Lines 131-170: `automated_token_management` (interactive mode).  Prompts
for the redirect URL, extracts the code, exchanges it; on success (`tokens`
is a non-empty dict, hence truthy) saves the refresh token locally, uploads
it to GCS and returns it; on a handled exchange failure returns `None`. -/
def automated_token_management (o : Oracle) (s : St) :
    Except PyExn (Option PyStr) × St × List Event :=
  let auth_code := auth_code_of o.redirectInput o.manualInput
  let ex := get_tokens_from_code o.codeResp auth_code
  match ex.1 with
  | Except.error e => (Except.error e, s, promptEvts o.redirectInput ++ ex.2)
  | Except.ok none => (Except.ok none, s, promptEvts o.redirectInput ++ ex.2)
  | Except.ok (some tokens) =>
    let sv := save_refresh_token tokens.2 s
    let up := upload_refresh_token_to_gcs sv.1
    (Except.ok (some tokens.2), up.1, promptEvts o.redirectInput ++ ex.2 ++ sv.2 ++ up.2)

/-- Lines 172-195: `get_valid_access_token`.  With `use_gcs_refresh_token`
(retrieval mode) the refresh token is loaded locally, with a GCS download
as fallback when that is falsy; otherwise (interactive mode) it comes from
`automated_token_management`.  A falsy token fails the run with `None`;
otherwise the token is exchanged for an access token, and a falsy exchange
result also yields `None`. -/
def get_valid_access_token (o : Oracle) (use_gcs_refresh_token : Bool) (s : St) :
    Except PyExn (Option PyStr) × St × List Event :=
  let step : Except PyExn (Option PyStr) × St × List Event :=
    if use_gcs_refresh_token then
      let lr := load_refresh_token s
      if pyTruthy lr.1 then (Except.ok lr.1, s, lr.2)
      else
        let dl := download_refresh_token_from_gcs s
        (Except.ok dl.1, dl.2.1, lr.2 ++ dl.2.2)
    else automated_token_management o s
  match step with
  | (Except.error e, s1, ev) => (Except.error e, s1, ev)
  | (Except.ok rtOpt, s1, ev) =>
    if pyTruthy rtOpt then
      let rt := rtOpt.getD []
      let rx := refresh_access_token o.refreshResp rt
      match rx.1 with
      | Except.error e => (Except.error e, s1, ev ++ rx.2)
      | Except.ok atOpt =>
        if pyTruthy atOpt then (Except.ok atOpt, s1, ev ++ rx.2)
        else (Except.ok none, s1, ev ++ rx.2)
    else (Except.ok none, s1, ev)

/-- Modelled from the spec: the `RefreshPolicy` component (§4.2) has no
implementation under `src/` (`datetime` is imported by `schwab_auth.py` but
never used); the spec describes it as the pure rule "return true if `today`
falls on a designated fixed weekday (Monday) or no local token file
exists; otherwise false".  Days are numbered so that the weekday of day
`d` is `d % 7`, with the designated weekday (Monday) at residue `0`. -/
def shouldForceReauthentication (today : Nat) (localTokenExists : Bool) : Bool :=
  (today % 7 = 0) || !localTokenExists

/-- A non-2xx HTTP status. -/
def nonSuccessStatus (status : Nat) : Prop := status < 200 ∨ 300 ≤ status

/-!
## Run characterizations

Closed-form descriptions of `get_valid_access_token` runs under the
scenarios the claims quantify over.
-/

/-- Result of lines 187-195: the final refresh-to-access exchange together
with the two falsy checks around it. -/
def refreshOutcome (refreshResp : PyStr → HttpResponse) (rt : PyStr) :
    Except PyExn (Option PyStr) :=
  match (refresh_access_token refreshResp rt).1 with
  | Except.error e => Except.error e
  | Except.ok atOpt => if pyTruthy atOpt then Except.ok atOpt else Except.ok none

lemma refresh_access_token_trace (rr : PyStr → HttpResponse) (rt : PyStr) :
    (refresh_access_token rr rt).2 = [Event.httpRefreshExchange rt] := rfl

lemma get_tokens_from_code_trace (cr : PyStr → HttpResponse) (c : PyStr) :
    (get_tokens_from_code cr c).2 = [Event.httpCodeExchange c] := rfl

lemma pyTruthy_some_iff (t : PyStr) : pyTruthy (some t) = true ↔ t ≠ [] := by
  simp [pyTruthy, List.isEmpty_iff]

lemma pyTruthy_none : pyTruthy none = false := rfl

lemma pyTruthy_some_nil : pyTruthy (some []) = false := rfl

/-- Retrieval mode when the local file holds a token that strips to a
non-empty string: the token is used directly, the state is untouched and
GCS is never consulted. -/
lemma gvat_local_truthy (o : Oracle) (s : St) (tl : PyStr)
    (h1 : s.localFile = some tl) (h2 : pyStrip tl ≠ []) :
    get_valid_access_token o true s =
      (refreshOutcome o.refreshResp (pyStrip tl), s,
       [Event.loadLocal, Event.httpRefreshExchange (pyStrip tl)]) := by
  have ht : pyTruthy (some (pyStrip tl)) = true := (pyTruthy_some_iff _).mpr h2
  simp only [get_valid_access_token, load_refresh_token, h1, Option.map_some',
    ht, if_true, Option.getD_some]
  cases hrx : (refresh_access_token o.refreshResp (pyStrip tl)).1 with
  | error e => simp [refreshOutcome, hrx, refresh_access_token_trace]
  | ok atOpt =>
    by_cases hat : pyTruthy atOpt = true
    · simp [refreshOutcome, hrx, hat, refresh_access_token_trace]
    · simp [refreshOutcome, hrx, hat, refresh_access_token_trace]

/-- Retrieval mode when the local token is absent (file missing or
whitespace-only) and GCS is not configured: the run fails with no network
call and no prompt. -/
lemma gvat_no_token_unconfigured (o : Oracle) (s : St)
    (h1 : pyTruthy (s.localFile.map pyStrip) = false)
    (hg : s.gcsConfigured = false) :
    get_valid_access_token o true s = (Except.ok none, s, [Event.loadLocal]) := by
  simp [get_valid_access_token, load_refresh_token, download_refresh_token_from_gcs,
    h1, hg, pyTruthy_none]

/-- Retrieval mode when the local token is absent, GCS is configured and
the remote object is absent (or the download fails): the run fails after
the one GCS consultation. -/
lemma gvat_no_token_remote_absent (o : Oracle) (s : St)
    (h1 : pyTruthy (s.localFile.map pyStrip) = false)
    (hg : s.gcsConfigured = true) (hr : s.remote = none) :
    get_valid_access_token o true s =
      (Except.ok none, s, [Event.loadLocal, Event.gcsDownload]) := by
  simp [get_valid_access_token, load_refresh_token, download_refresh_token_from_gcs,
    h1, hg, hr, pyTruthy_none]

/-- Retrieval mode when the local token is absent, GCS is configured and
the download succeeds with bytes that strip to a non-empty token: the
remote bytes overwrite the local file and the re-read token is exchanged. -/
lemma gvat_remote_fallback (o : Oracle) (s : St) (tr : PyStr)
    (h1 : pyTruthy (s.localFile.map pyStrip) = false)
    (hg : s.gcsConfigured = true) (hr : s.remote = some tr)
    (h2 : pyStrip tr ≠ []) :
    get_valid_access_token o true s =
      (refreshOutcome o.refreshResp (pyStrip tr), { s with localFile := some tr },
       [Event.loadLocal, Event.gcsDownload, Event.loadLocal,
        Event.httpRefreshExchange (pyStrip tr)]) := by
  have ht : pyTruthy (some (pyStrip tr)) = true := (pyTruthy_some_iff _).mpr h2
  simp only [get_valid_access_token, load_refresh_token, download_refresh_token_from_gcs,
    h1, hg, hr, if_true, if_false, Bool.false_eq_true, Option.map_some', ht,
    Option.getD_some, List.cons_append, List.nil_append]
  cases hrx : (refresh_access_token o.refreshResp (pyStrip tr)).1 with
  | error e => simp [refreshOutcome, hrx, refresh_access_token_trace]
  | ok atOpt =>
    by_cases hat : pyTruthy atOpt = true
    · simp [refreshOutcome, hrx, hat, refresh_access_token_trace]
    · simp [refreshOutcome, hrx, hat, refresh_access_token_trace]

/-- Retrieval mode when the local token is absent, GCS is configured and
the download succeeds but with whitespace-only bytes: the remote bytes
still overwrite the local file, yet the run fails without any exchange. -/
lemma gvat_remote_fallback_falsy (o : Oracle) (s : St) (tr : PyStr)
    (h1 : pyTruthy (s.localFile.map pyStrip) = false)
    (hg : s.gcsConfigured = true) (hr : s.remote = some tr)
    (h2 : pyStrip tr = []) :
    get_valid_access_token o true s =
      (Except.ok none, { s with localFile := some tr },
       [Event.loadLocal, Event.gcsDownload, Event.loadLocal]) := by
  simp [get_valid_access_token, load_refresh_token, download_refresh_token_from_gcs,
    h1, hg, hr, h2, pyTruthy_some_nil]

/-- Interactive mode when the code exchange is rejected with a status other
than 200: the run fails and the state is untouched. -/
lemma gvat_interactive_rejected (o : Oracle) (s : St)
    (hst : (o.codeResp (auth_code_of o.redirectInput o.manualInput)).status ≠ 200) :
    get_valid_access_token o false s =
      (Except.ok none, s,
       promptEvts o.redirectInput ++
         [Event.httpCodeExchange (auth_code_of o.redirectInput o.manualInput)]) := by
  simp [get_valid_access_token, automated_token_management, get_tokens_from_code,
    hst, pyTruthy_none]

/-- Interactive mode when the code exchange succeeds (status 200 with both
fields present): the new refresh token is saved locally, mirrored to GCS
when configured, and then exchanged (unless empty). -/
lemma gvat_interactive_success (o : Oracle) (s : St) (a rt : PyStr)
    (hst : (o.codeResp (auth_code_of o.redirectInput o.manualInput)).status = 200)
    (hat : (o.codeResp (auth_code_of o.redirectInput o.manualInput)).access_token = some a)
    (hrt : (o.codeResp (auth_code_of o.redirectInput o.manualInput)).refresh_token = some rt) :
    get_valid_access_token o false s =
      (if rt.isEmpty then Except.ok none else refreshOutcome o.refreshResp rt,
       { s with localFile := some rt,
                remote := if s.gcsConfigured then some rt else s.remote },
       promptEvts o.redirectInput ++
         [Event.httpCodeExchange (auth_code_of o.redirectInput o.manualInput),
          Event.saveLocal rt] ++
         (if s.gcsConfigured then [Event.gcsUpload] else []) ++
         (if rt.isEmpty then [] else [Event.httpRefreshExchange rt])) := by
  simp only [get_valid_access_token, automated_token_management, get_tokens_from_code,
    save_refresh_token, upload_refresh_token_to_gcs, hst, hat, hrt, if_pos rfl]
  by_cases hrtE : rt.isEmpty
  · have h0 : rt = [] := by simpa [List.isEmpty_iff] using hrtE
    cases hgc : s.gcsConfigured <;>
      simp [h0, pyTruthy_some_nil, hgc]
  · have ht : pyTruthy (some rt) = true := by
      simp [pyTruthy, hrtE]
    cases hgc : s.gcsConfigured with
    | false =>
      simp only [hgc, if_false, Bool.false_eq_true, ht, if_true, Option.getD_some]
      cases hrx : (refresh_access_token o.refreshResp rt).1 with
      | error e => simp [refreshOutcome, hrx, refresh_access_token_trace, hrtE]
      | ok atOpt =>
        by_cases hAT : pyTruthy atOpt = true
        · simp [refreshOutcome, hrx, hAT, refresh_access_token_trace, hrtE]
        · simp [refreshOutcome, hrx, hAT, refresh_access_token_trace, hrtE]
    | true =>
      simp only [hgc, if_true, ht, Option.getD_some]
      cases hrx : (refresh_access_token o.refreshResp rt).1 with
      | error e => simp [refreshOutcome, hrx, refresh_access_token_trace, hrtE, ht]
      | ok atOpt =>
        by_cases hAT : pyTruthy atOpt = true
        · simp [refreshOutcome, hrx, hAT, refresh_access_token_trace, hrtE, ht]
        · simp [refreshOutcome, hrx, hAT, refresh_access_token_trace, hrtE, ht]

/-- `pyStrip` is the identity on a string with no leading or trailing
whitespace. -/
lemma pyStrip_eq_self (t : PyStr)
    (h1 : t.head?.all (fun c => !isPySpace c) = true)
    (h2 : t.getLast?.all (fun c => !isPySpace c) = true) :
    pyStrip t = t := by
  unfold pyStrip
  have hd : t.dropWhile isPySpace = t := by
    cases t with
    | nil => rfl
    | cons c cs =>
      simp only [List.head?_cons, Option.all_some] at h1
      have hc : isPySpace c = false := by simpa using h1
      simp [List.dropWhile_cons, hc]
  rw [hd]
  have hrev : t.reverse.dropWhile isPySpace = t.reverse := by
    cases hr : t.reverse with
    | nil => rfl
    | cons c cs =>
      have hlast : t.getLast? = some c := by
        rw [← List.head?_reverse, hr, List.head?_cons]
      rw [hlast, Option.all_some] at h2
      have hc : isPySpace c = false := by simpa using h2
      simp [List.dropWhile_cons, hc]
  rw [hrev, List.reverse_reverse]

/-!
## The claims
-/

/-- C1: the refresh policy (spec §4.2, modelled from the spec — there is no
implementation under `src/`) forces re-authentication exactly when the date
falls on the designated weekday (Monday, residue `0`) or no local token
exists; in particular it returns `false` on every non-designated day when a
local token exists. -/
theorem refresh_policy_designated_weekday :
    (∀ (d : Nat) (localTokenExists : Bool),
       shouldForceReauthentication d localTokenExists = true ↔
         (d % 7 = 0 ∨ localTokenExists = false)) ∧
    (∀ d : Nat, d % 7 ≠ 0 → shouldForceReauthentication d true = false) := by
  constructor
  · intro d ex
    cases ex <;> simp [shouldForceReauthentication]
  · intro d h
    simp [shouldForceReauthentication, h]

theorem refresh_policy_designated_weekday_wit :
    (3 : Nat) % 7 ≠ 0 ∧ shouldForceReauthentication 3 true = false :=
  ⟨by decide, refresh_policy_designated_weekday.2 3 (by decide)⟩

/-- C2: in retrieval mode the trace always begins with the local-file read,
and whenever the local file holds a (non-whitespace) token — in particular
when local and remote hold different tokens — the locally stored value is
the one sent to the refresh exchange, the remote store is never consulted
and the state is unchanged. -/
theorem retrieval_mode_local_first :
    (∀ (o : Oracle) (s : St),
       (get_valid_access_token o true s).2.2.head? = some Event.loadLocal) ∧
    (∀ (o : Oracle) (s : St) (tl tr : PyStr),
       s.localFile = some tl → s.remote = some tr →
       pyStrip tl ≠ [] → pyStrip tl ≠ tr →
       Event.httpRefreshExchange (pyStrip tl) ∈ (get_valid_access_token o true s).2.2 ∧
       Event.gcsDownload ∉ (get_valid_access_token o true s).2.2 ∧
       (get_valid_access_token o true s).2.1 = s) := by
  constructor
  · intro o s
    by_cases h1 : pyTruthy (s.localFile.map pyStrip) = true
    · obtain ⟨tl, hl⟩ : ∃ tl, s.localFile = some tl := by
        cases hl : s.localFile with
        | none => rw [hl] at h1; simp [pyTruthy_none] at h1
        | some tl => exact ⟨tl, rfl⟩
      have h2 : pyStrip tl ≠ [] := by
        rw [hl, Option.map_some'] at h1
        exact (pyTruthy_some_iff _).mp h1
      rw [gvat_local_truthy o s tl hl h2]
      rfl
    · rw [Bool.not_eq_true] at h1
      cases hg : s.gcsConfigured with
      | false =>
        rw [gvat_no_token_unconfigured o s h1 hg]
        rfl
      | true =>
        cases hr : s.remote with
        | none =>
          rw [gvat_no_token_remote_absent o s h1 hg hr]
          rfl
        | some tr =>
          by_cases h2 : pyStrip tr = []
          · rw [gvat_remote_fallback_falsy o s tr h1 hg hr h2]
            rfl
          · rw [gvat_remote_fallback o s tr h1 hg hr h2]
            rfl
  · intro o s tl tr hl hr h2 _hne
    rw [gvat_local_truthy o s tl hl h2]
    exact ⟨by simp, by simp, rfl⟩

theorem retrieval_mode_local_first_wit :
    (⟨some ("LOCAL".toList), true, some ("REMOTE".toList)⟩ : St).localFile =
        some ("LOCAL".toList) ∧
      Event.gcsDownload ∉
        (get_valid_access_token
          ⟨[], [], fun _ => ⟨200, some ("AT".toList), some ("RT".toList)⟩,
            fun _ => ⟨200, some ("AT".toList), none⟩⟩ true
          ⟨some ("LOCAL".toList), true, some ("REMOTE".toList)⟩).2.2 :=
  ⟨rfl,
    (retrieval_mode_local_first.2 _ _ ("LOCAL".toList) ("REMOTE".toList)
      rfl rfl (by decide) (by decide)).2.1⟩

/-- C3: a code-exchange response with a non-2xx status makes interactive
mode fail the run (the handled-failure return `None`) and leaves the state
— the local token file and the remote object — exactly as it was. -/
theorem interactive_rejected_writes_nothing :
    ∀ (o : Oracle) (s : St),
      nonSuccessStatus (o.codeResp (auth_code_of o.redirectInput o.manualInput)).status →
      (get_valid_access_token o false s).1 = Except.ok none ∧
      (get_valid_access_token o false s).2.1 = s := by
  intro o s h
  have hne : (o.codeResp (auth_code_of o.redirectInput o.manualInput)).status ≠ 200 := by
    rcases h with h | h <;> omega
  rw [gvat_interactive_rejected o s hne]
  exact ⟨rfl, rfl⟩

theorem interactive_rejected_writes_nothing_wit :
    (get_valid_access_token
        ⟨"https://127.0.0.1/?code=ABC&s=1".toList, [],
          fun _ => ⟨400, none, none⟩, fun _ => ⟨200, some ("AT".toList), none⟩⟩
        false ⟨some ("OLD".toList), true, some ("OLD".toList)⟩).2.1 =
      ⟨some ("OLD".toList), true, some ("OLD".toList)⟩ :=
  (interactive_rejected_writes_nothing _ _ (Or.inr (by decide))).2

/-- C4: retrieval mode with the local token absent (file missing or
whitespace-only) and the remote object absent (or the download failing)
fails the run — the code prints "No valid refresh token available locally
or in GCS." and returns `None` — without prompting a human and without any
token-exchange network call. -/
theorem retrieval_no_token_fails :
    ∀ (o : Oracle) (s : St),
      pyTruthy (s.localFile.map pyStrip) = false →
      s.remote = none →
      (get_valid_access_token o true s).1 = Except.ok none ∧
      Event.promptHuman ∉ (get_valid_access_token o true s).2.2 ∧
      (∀ c, Event.httpCodeExchange c ∉ (get_valid_access_token o true s).2.2) ∧
      (∀ rt, Event.httpRefreshExchange rt ∉ (get_valid_access_token o true s).2.2) := by
  intro o s h1 hr
  cases hg : s.gcsConfigured with
  | false =>
    rw [gvat_no_token_unconfigured o s h1 hg]
    exact ⟨rfl, by simp, by simp, by simp⟩
  | true =>
    rw [gvat_no_token_remote_absent o s h1 hg hr]
    exact ⟨rfl, by simp, by simp, by simp⟩

theorem retrieval_no_token_fails_wit :
    (get_valid_access_token
        ⟨[], [], fun _ => ⟨200, some ("AT".toList), some ("RT".toList)⟩,
          fun _ => ⟨200, some ("AT".toList), none⟩⟩ true
        ⟨some ("  ".toList), true, none⟩).1 = Except.ok none :=
  (retrieval_no_token_fails _ _ (by decide) rfl).1

/-- C5 (counterexample): at the concrete input — code exchange answered
with status 200 and body `{}` — the run does not fail through the handled
diagnostic channel (`Except.ok none`, where the code prints an error
message); it raises an uncaught `KeyError` on `tokens['access_token']`,
i.e. a crash, and no `MalformedResponse`-style diagnostic exists. -/
theorem token_exchange_missing_field_cex :
    (get_tokens_from_code (fun _ => ⟨200, none, none⟩) ("CODE".toList)).1 =
      Except.error (PyExn.keyError "access_token") ∧
    (get_tokens_from_code (fun _ => ⟨200, none, none⟩) ("CODE".toList)).1 ≠
      Except.ok none := by
  refine ⟨rfl, fun h => ?_⟩
  rw [show (get_tokens_from_code (fun _ => ⟨200, none, none⟩) ("CODE".toList)).1 =
        Except.error (PyExn.keyError "access_token") from rfl] at h
  exact Except.noConfusion h

/-- C5 (amended): a status-200 response whose JSON body lacks an expected
field (`access_token` in either exchange, `refresh_token` in the code
exchange) makes the operation raise an uncaught `KeyError` — a crash with
a traceback, not a handled `MalformedResponse` diagnostic; and a 2xx
status other than 200 is treated as a rejected request (handled
diagnostic, `None`), not as a success. -/
theorem token_exchange_missing_field_uncaught :
    (∀ (cr : PyStr → HttpResponse) (c : PyStr),
       (cr c).status = 200 → (cr c).access_token = none →
       (get_tokens_from_code cr c).1 = Except.error (PyExn.keyError "access_token")) ∧
    (∀ (cr : PyStr → HttpResponse) (c : PyStr) (a : PyStr),
       (cr c).status = 200 → (cr c).access_token = some a →
       (cr c).refresh_token = none →
       (get_tokens_from_code cr c).1 = Except.error (PyExn.keyError "refresh_token")) ∧
    (∀ (rr : PyStr → HttpResponse) (t : PyStr),
       (rr t).status = 200 → (rr t).access_token = none →
       (refresh_access_token rr t).1 = Except.error (PyExn.keyError "access_token")) ∧
    (∀ (cr : PyStr → HttpResponse) (c : PyStr),
       (cr c).status ≠ 200 →
       (get_tokens_from_code cr c).1 = Except.ok none) := by
  refine ⟨?_, ?_, ?_, ?_⟩
  · intro cr c h1 h2
    simp [get_tokens_from_code, h1, h2]
  · intro cr c a h1 h2 h3
    simp [get_tokens_from_code, h1, h2, h3]
  · intro rr t h1 h2
    simp [refresh_access_token, h1, h2]
  · intro cr c h1
    simp [get_tokens_from_code, h1]

theorem token_exchange_missing_field_uncaught_wit :
    (refresh_access_token (fun _ => ⟨200, none, some ("R".toList)⟩) ("RT".toList)).1 =
      Except.error (PyExn.keyError "access_token") :=
  token_exchange_missing_field_uncaught.2.2.1 _ _ rfl rfl

/-- C7: after a successful code exchange in interactive mode, the new
refresh token is written to the local file and mirrored to the remote
object (when GCS is configured) before the final refresh-to-access
exchange appears in the trace; the final state does not depend on the
refresh-exchange oracle at all, so a failing final exchange leaves the
newly stored token in place. -/
theorem interactive_persists_before_refresh :
    ∀ (o : Oracle) (s : St) (a rt : PyStr),
      (o.codeResp (auth_code_of o.redirectInput o.manualInput)).status = 200 →
      (o.codeResp (auth_code_of o.redirectInput o.manualInput)).access_token = some a →
      (o.codeResp (auth_code_of o.redirectInput o.manualInput)).refresh_token = some rt →
      (get_valid_access_token o false s).2.1.localFile = some rt ∧
      (s.gcsConfigured = true → (get_valid_access_token o false s).2.1.remote = some rt) ∧
      (s.gcsConfigured = false → (get_valid_access_token o false s).2.1.remote = s.remote) ∧
      (get_valid_access_token o false s).2.2 =
        promptEvts o.redirectInput ++
          [Event.httpCodeExchange (auth_code_of o.redirectInput o.manualInput),
           Event.saveLocal rt] ++
          (if s.gcsConfigured then [Event.gcsUpload] else []) ++
          (if rt.isEmpty then [] else [Event.httpRefreshExchange rt]) := by
  intro o s a rt h1 h2 h3
  rw [gvat_interactive_success o s a rt h1 h2 h3]
  refine ⟨rfl, ?_, ?_, rfl⟩
  · intro hg; simp [hg]
  · intro hg; simp [hg]

theorem interactive_persists_before_refresh_wit :
    (get_valid_access_token
        ⟨"https://127.0.0.1/?code=C1&s=1".toList, [],
          fun _ => ⟨200, some ("AT1".toList), some ("RT1".toList)⟩,
          fun _ => ⟨400, none, none⟩⟩
        false ⟨none, true, none⟩).2.1.localFile = some ("RT1".toList) :=
  (interactive_persists_before_refresh _ _ ("AT1".toList) ("RT1".toList) rfl rfl rfl).1

/-- C8: saving a refresh token and loading it back returns the token up to
whitespace trimming, and exactly the token itself when it has no leading
or trailing whitespace. -/
theorem save_load_roundtrip :
    ∀ (t : PyStr) (s : St),
      (load_refresh_token (save_refresh_token t s).1).1 = some (pyStrip t) ∧
      (t.head?.all (fun c => !isPySpace c) = true →
       t.getLast?.all (fun c => !isPySpace c) = true →
       (load_refresh_token (save_refresh_token t s).1).1 = some t) := by
  intro t s
  constructor
  · simp [load_refresh_token, save_refresh_token]
  · intro h1 h2
    simp [load_refresh_token, save_refresh_token, pyStrip_eq_self t h1 h2]

theorem save_load_roundtrip_wit :
    (load_refresh_token (save_refresh_token ("RT1".toList) ⟨none, false, none⟩).1).1 =
      some ("RT1".toList) :=
  (save_load_roundtrip ("RT1".toList) ⟨none, false, none⟩).2 (by decide) (by decide)

/-- C9: a local file that strips to the empty string loads as `""`, which
retrieval mode treats as token-absent: with GCS configured it falls back
to the remote download, otherwise (or with the remote also absent) the run
fails with `None`; and no refresh exchange ever carries an empty token. -/
theorem whitespace_local_token_treated_absent :
    ∀ (o : Oracle) (s : St) (w : PyStr),
      s.localFile = some w → pyStrip w = [] →
      (load_refresh_token s).1 = some [] ∧
      (s.gcsConfigured = true → Event.gcsDownload ∈ (get_valid_access_token o true s).2.2) ∧
      (s.gcsConfigured = false → (get_valid_access_token o true s).1 = Except.ok none) ∧
      (s.remote = none → (get_valid_access_token o true s).1 = Except.ok none) ∧
      (∀ rt : PyStr,
        Event.httpRefreshExchange rt ∈ (get_valid_access_token o true s).2.2 → rt ≠ []) := by
  intro o s w hw hstrip
  have hfalsy : pyTruthy (s.localFile.map pyStrip) = false := by
    rw [hw, Option.map_some', hstrip]
    exact pyTruthy_some_nil
  refine ⟨?_, ?_, ?_, ?_, ?_⟩
  · simp [load_refresh_token, hw, hstrip]
  · intro hg
    cases hr : s.remote with
    | none => rw [gvat_no_token_remote_absent o s hfalsy hg hr]; simp
    | some tr =>
      by_cases h2 : pyStrip tr = []
      · rw [gvat_remote_fallback_falsy o s tr hfalsy hg hr h2]; simp
      · rw [gvat_remote_fallback o s tr hfalsy hg hr h2]; simp
  · intro hg
    rw [gvat_no_token_unconfigured o s hfalsy hg]
  · intro hr
    cases hg : s.gcsConfigured with
    | false => rw [gvat_no_token_unconfigured o s hfalsy hg]
    | true => rw [gvat_no_token_remote_absent o s hfalsy hg hr]
  · intro rt hmem
    cases hg : s.gcsConfigured with
    | false =>
      rw [gvat_no_token_unconfigured o s hfalsy hg] at hmem
      simp at hmem
    | true =>
      cases hr : s.remote with
      | none =>
        rw [gvat_no_token_remote_absent o s hfalsy hg hr] at hmem
        simp at hmem
      | some tr =>
        by_cases h2 : pyStrip tr = []
        · rw [gvat_remote_fallback_falsy o s tr hfalsy hg hr h2] at hmem
          simp at hmem
        · rw [gvat_remote_fallback o s tr hfalsy hg hr h2] at hmem
          simp at hmem
          rw [hmem]
          exact h2

theorem whitespace_local_token_treated_absent_wit :
    (get_valid_access_token
        ⟨[], [], fun _ => ⟨200, some ("AT".toList), some ("RT".toList)⟩,
          fun _ => ⟨200, some ("AT".toList), none⟩⟩ true
        ⟨some (" \t ".toList), false, none⟩).1 = Except.ok none :=
  (whitespace_local_token_treated_absent _ _ (" \t ".toList) rfl (by decide)).2.2.1 rfl


/-- C6: redirect parsing.  `"https://127.0.0.1/?code=ABC123&session=xyz"`
yields `"ABC123"`; a URL-encoded code `code=ABC%2B123` decodes to
`"ABC+123"`; and whenever the substring `code=` does not occur in the
(stripped) pasted input, the manual-entry fallback is taken and the
manually entered code is also URL-decoded (after stripping). -/
theorem redirect_parsing_examples :
    (∀ m : PyStr,
       auth_code_of ("https://127.0.0.1/?code=ABC123&session=xyz".toList) m =
         "ABC123".toList) ∧
    (∀ m : PyStr,
       auth_code_of ("https://127.0.0.1/?code=ABC%2B123&session=xyz".toList) m =
         "ABC+123".toList) ∧
    (∀ r m : PyStr,
       pyContains codeEqStr (pyStrip r) = false →
       auth_code_of r m = pyUnquote (pyStrip m)) := by
  refine ⟨?_, ?_, ?_⟩
  · intro m
    have hc : pyContains codeEqStr
        (pyStrip ("https://127.0.0.1/?code=ABC123&session=xyz".toList)) = true := by
      decide
    simp only [auth_code_of, hc, if_true]
    decide
  · intro m
    have hc : pyContains codeEqStr
        (pyStrip ("https://127.0.0.1/?code=ABC%2B123&session=xyz".toList)) = true := by
      decide
    simp only [auth_code_of, hc, if_true]
    decide
  · intro r m h
    simp [auth_code_of, h]

theorem redirect_parsing_examples_wit :
    pyContains codeEqStr (pyStrip ("https://127.0.0.1/?session=xyz".toList)) = false ∧
    auth_code_of ("https://127.0.0.1/?session=xyz".toList) (" ABC%2B123 ".toList) =
      pyUnquote (pyStrip (" ABC%2B123 ".toList)) :=
  ⟨by decide,
    redirect_parsing_examples.2.2 ("https://127.0.0.1/?session=xyz".toList)
      (" ABC%2B123 ".toList) (by decide)⟩

/-!
## First-occurrence characterization of the split-based extraction (C10)
-/

lemma splitFirst_eq_firstIdx (sep s : PyStr) :
    splitFirst sep s =
      (firstIdx sep s).map (fun i => (s.take i, s.drop (i + sep.length))) := by
  induction s with
  | nil =>
    by_cases h : List.isPrefixOf sep ([] : PyStr)
    · simp [splitFirst, firstIdx, h]
    · simp [splitFirst, firstIdx, h]
  | cons c cs ih =>
    by_cases h : List.isPrefixOf sep (c :: cs)
    · simp [splitFirst, firstIdx, h]
    · simp only [splitFirst, firstIdx, h, if_false, ih]
      cases hfi : firstIdx sep cs with
      | none => simp
      | some i =>
        simp [List.take_succ_cons, List.drop_succ_cons, Nat.add_right_comm]

lemma firstIdx_le_length (sep s : PyStr) (i : Nat)
    (h : firstIdx sep s = some i) : i ≤ s.length := by
  induction s generalizing i with
  | nil =>
    by_cases hp : List.isPrefixOf sep ([] : PyStr)
    · simp [firstIdx, hp] at h
      omega
    · simp [firstIdx, hp] at h
  | cons c cs ih =>
    by_cases hp : List.isPrefixOf sep (c :: cs)
    · simp [firstIdx, hp] at h
      omega
    · have hstep : firstIdx sep (c :: cs) = (firstIdx sep cs).map (· + 1) := by
        simp [firstIdx, hp]
      rw [hstep] at h
      cases hfi : firstIdx sep cs with
      | none => rw [hfi] at h; simp at h
      | some j =>
        rw [hfi] at h
        simp only [Option.map_some', Option.some.injEq] at h
        have := ih j hfi
        simp only [List.length_cons]
        omega

lemma firstIdx_single_nil (c : Char) : firstIdx [c] ([] : PyStr) = none := rfl

lemma isPrefixOf_single (c x : Char) (xs : PyStr) :
    List.isPrefixOf [c] (x :: xs) = (c == x) := by
  simp [List.isPrefixOf]

lemma firstIdx_single_cons (c x : Char) (xs : PyStr) :
    firstIdx [c] (x :: xs) =
      if c = x then some 0 else (firstIdx [c] xs).map (· + 1) := by
  by_cases h : c = x <;> simp [firstIdx, isPrefixOf_single, h]

lemma firstIdx_single_take_none (c : Char) (l : PyStr) (n : Nat)
    (h : firstIdx [c] l = none) : firstIdx [c] (l.take n) = none := by
  induction l generalizing n with
  | nil => simpa using h
  | cons x xs ih =>
    rw [firstIdx_single_cons] at h
    by_cases hc : c = x
    · simp [hc] at h
    · simp only [hc, if_false, Option.map_eq_none'] at h
      cases n with
      | zero => simp [firstIdx_single_nil]
      | succ m =>
        rw [List.take_succ_cons, firstIdx_single_cons]
        simp [hc, ih m h]

lemma firstIdx_single_take_lt (c : Char) (l : PyStr) (n i : Nat)
    (h : firstIdx [c] l = some i) (hlt : i < n) :
    firstIdx [c] (l.take n) = some i := by
  induction l generalizing n i with
  | nil => rw [firstIdx_single_nil] at h; exact absurd h (by simp)
  | cons x xs ih =>
    rw [firstIdx_single_cons] at h
    by_cases hc : c = x
    · simp only [hc, if_true, if_pos rfl] at h
      cases n with
      | zero => omega
      | succ m =>
        rw [List.take_succ_cons, firstIdx_single_cons]
        simp [hc, h]
    · simp only [hc, if_false, Option.map_eq_some'] at h
      obtain ⟨j, hj, hji⟩ := h
      cases n with
      | zero => omega
      | succ m =>
        rw [List.take_succ_cons, firstIdx_single_cons]
        have : firstIdx [c] (xs.take m) = some j := ih m j hj (by omega)
        simp [hc, this, hji]

lemma firstIdx_single_take_ge (c : Char) (l : PyStr) (n i : Nat)
    (h : firstIdx [c] l = some i) (hge : n ≤ i) :
    firstIdx [c] (l.take n) = none := by
  induction l generalizing n i with
  | nil => rw [firstIdx_single_nil] at h; exact absurd h (by simp)
  | cons x xs ih =>
    cases n with
    | zero => simp [firstIdx_single_nil]
    | succ m =>
      rw [firstIdx_single_cons] at h
      by_cases hc : c = x
      · simp only [hc, if_true, if_pos rfl, Option.some.injEq] at h
        omega
      · simp only [hc, if_false, Option.map_eq_some'] at h
        obtain ⟨j, hj, hji⟩ := h
        rw [List.take_succ_cons, firstIdx_single_cons]
        have : firstIdx [c] (xs.take m) = none := ih m j hj (by omega)
        simp [hc, this]

lemma pySplitGet0_take (sep s : PyStr) :
    pySplitGet0 sep s = s.take ((firstIdx sep s).getD s.length) := by
  unfold pySplitGet0
  rw [splitFirst_eq_firstIdx]
  cases h : firstIdx sep s with
  | none => simp
  | some i => simp

lemma pySplitGet1_take (sep s : PyStr) (i : Nat) (h : firstIdx sep s = some i) :
    pySplitGet1 sep s =
      (s.drop (i + sep.length)).take
        ((firstIdx sep (s.drop (i + sep.length))).getD (s.drop (i + sep.length)).length) := by
  unfold pySplitGet1
  rw [splitFirst_eq_firstIdx, h]
  simp only [Option.map_some']
  rw [splitFirst_eq_firstIdx]
  cases h2 : firstIdx sep (s.drop (i + sep.length)) with
  | none => simp
  | some j => simp

lemma pyContains_iff (sep s : PyStr) :
    pyContains sep s = true ↔ ∃ i, firstIdx sep s = some i := by
  unfold pyContains
  rw [splitFirst_eq_firstIdx]
  cases h : firstIdx sep s <;> simp

/-- The extraction rule as C10 words it: the URL-decoded text between the
first occurrence of `code=` and the next `&` (or the end of the input). -/
def claimed_extract (url : PyStr) : PyStr :=
  match firstIdx codeEqStr url with
  | none => []
  | some i =>
    let tail := url.drop (i + codeEqStr.length)
    pyUnquote (tail.take ((firstIdx ampStr tail).getD tail.length))

/-- The amended extraction rule: the URL-decoded text between the first
occurrence of `code=` and the next `&` or the next occurrence of `code=`,
whichever comes first (or the end of the input). -/
def amended_extract (url : PyStr) : PyStr :=
  match firstIdx codeEqStr url with
  | none => []
  | some i =>
    let tail := url.drop (i + codeEqStr.length)
    pyUnquote (tail.take
      (min ((firstIdx ampStr tail).getD tail.length)
           ((firstIdx codeEqStr tail).getD tail.length)))

/-- C10 (counterexample): for the input
`"https://127.0.0.1/?encode=xcode=y"` — where `code=` occurs only inside
longer parameter names — the code extracts `"x"` (the `split("code=")[1]`
segment ends at the second occurrence of `code=`), while the text between
the first occurrence of `code=` and the next `&` is `"xcode=y"`; the claim
as stated is therefore false at this input. -/
theorem extract_code_claim_cex :
    extract_code_from_redirect ("https://127.0.0.1/?encode=xcode=y".toList) =
      "x".toList ∧
    claimed_extract ("https://127.0.0.1/?encode=xcode=y".toList) =
      "xcode=y".toList ∧
    extract_code_from_redirect ("https://127.0.0.1/?encode=xcode=y".toList) ≠
      claimed_extract ("https://127.0.0.1/?encode=xcode=y".toList) := by
  refine ⟨by decide, by decide, by decide⟩

/-- C10 (amended): code extraction keys on the first occurrence of the raw
substring `code=` anywhere in the input; for every input containing
`code=`, the extracted code is the URL-decoded text between that first
occurrence and the next `&` or the next occurrence of `code=`, whichever
comes first; and the manual-entry fallback is taken exactly when `code=`
occurs nowhere in the (stripped) input. -/
theorem extract_code_first_occurrence :
    (∀ url : PyStr, pyContains codeEqStr url = true →
       extract_code_from_redirect url = amended_extract url) ∧
    (∀ r m : PyStr, pyContains codeEqStr (pyStrip r) = true →
       auth_code_of r m = extract_code_from_redirect (pyStrip r)) ∧
    (∀ r m : PyStr, pyContains codeEqStr (pyStrip r) = false →
       auth_code_of r m = pyUnquote (pyStrip m)) := by
  refine ⟨?_, ?_, ?_⟩
  · intro url hc
    obtain ⟨i, hi⟩ := (pyContains_iff _ _).mp hc
    simp only [extract_code_from_redirect, amended_extract, hi]
    rw [pySplitGet1_take codeEqStr url i hi, pySplitGet0_take]
    congr 1
    have hamp : ampStr = ['&'] := rfl
    rw [hamp]
    set tail := url.drop (i + codeEqStr.length) with htail
    set jc := (firstIdx codeEqStr tail).getD tail.length with hjc
    have hjcle : jc ≤ tail.length := by
      rw [hjc]
      cases h2 : firstIdx codeEqStr tail with
      | none => simp
      | some j => simpa using firstIdx_le_length _ _ _ h2
    cases ha : firstIdx ['&'] tail with
    | none =>
      rw [firstIdx_single_take_none '&' tail jc ha]
      simp only [Option.getD_none, List.take_length]
      rw [min_eq_right hjcle]
    | some ja =>
      rcases Nat.lt_or_ge ja jc with hlt | hge
      · rw [firstIdx_single_take_lt '&' tail jc ja ha hlt]
        simp only [Option.getD_some]
        rw [List.take_take]
      · rw [firstIdx_single_take_ge '&' tail jc ja ha hge]
        simp only [Option.getD_none, Option.getD_some, List.take_length]
        rw [min_eq_right hge]
  · intro r m h
    simp [auth_code_of, h]
  · intro r m h
    simp [auth_code_of, h]

theorem extract_code_first_occurrence_wit :
    extract_code_from_redirect ("https://127.0.0.1/?encode=x".toList) =
      amended_extract ("https://127.0.0.1/?encode=x".toList) :=
  extract_code_first_occurrence.1 ("https://127.0.0.1/?encode=x".toList) (by decide)
